import Mathlib

/-!
# Calculator repository: formal model and verification

The repository implements a tiny command-line calculator redundantly in C
(CUnit tests in `test_calc.c`) and C++ (`main.cpp` CLI, GoogleTest tests in
`test_calculator.cpp`).  The arithmetic core (`calc.c` / `calculator.cpp`) is
not shipped in the source tree we were given — only its tests, headers and the
CLI caller are — so the core is modelled from the specification and the tests,
while the C++ CLI driver `main.cpp` is embedded directly from its source.

Floating-point doubles are modelled exactly over `ℚ`: every claim at stake is
about which arithmetic operation is selected and how errors are reported, not
about rounding.
-/

/-- The error kinds of the calculator core, from the spec's error taxonomy:
`DivisionByZero` and `UnknownOperation` are detected by the Calculator. -/
inductive CalcError where
  | DivisionByZero : CalcError
  | UnknownOperation : CalcError
deriving DecidableEq, Repr

/-- The four recognised operation tokens of the CLI surface. -/
def opTokens : List String := ["--add", "--subtract", "--multiply", "--divide"]

/-- Modelled from the spec: the calculator core `calculate` (its C and C++
implementations, `calc.c` and `calculator.cpp`, are missing from the source
tree; only their tests and callers are present).  Spec §4.1: `add` → a + b,
`subtract` → a − b, `multiply` → a × b, `divide` → a ÷ b except that `b = 0`
fails with `DivisionByZero`; an unrecognised operation token fails with
`UnknownOperation`.  Operands are modelled over `ℚ`. -/
def calcSpec (a b : ℚ) (operation : String) : Except CalcError ℚ :=
  if operation = "--add" then .ok (a + b)
  else if operation = "--subtract" then .ok (a - b)
  else if operation = "--multiply" then .ok (a * b)
  else if operation = "--divide" then
    if b = 0 then .error CalcError.DivisionByZero
    else .ok (a / b)
  else .error CalcError.UnknownOperation

/-- Whether an `Except` result is a success. -/
def Except.okB : Except CalcError ℚ → Bool
  | .ok _ => true
  | .error _ => false

/-- Result of the C interface `double calculate(double a, double b,
const char* op, int* status)`: the returned double paired with the value
written through the `int*` out-parameter. -/
structure CResult where
  result : ℚ
  status : Nat
deriving DecidableEq, Repr

/-- Modelled from the spec and the CUnit tests in `test_calc.c` (the
implementation `calc.c` is missing from the source tree): the C `calculate`
writes status `0` on success and `1` on failure through the out-parameter and
always returns a double normally; the returned double on failure is not
specified (the tests never read it), modelled as `0`. -/
def c_calculate (a b : ℚ) (operation : String) : CResult :=
  match calcSpec a b operation with
  | .ok r => ⟨r, 0⟩
  | .error _ => ⟨0, 1⟩

/-- The kind of a thrown C++ standard-library exception, as far as the model
needs: `std::invalid_argument` and `std::out_of_range` (both derive from
`std::exception`; `std::stod` can throw either, `calculate` throws only the
former). -/
inductive CppExceptionKind where
  | invalidArgument : CppExceptionKind
  | outOfRange : CppExceptionKind
deriving DecidableEq, Repr

/-- A thrown C++ exception: its kind and its `what()` message. -/
structure CppException where
  kind : CppExceptionKind
  what : String
deriving DecidableEq, Repr

/-- Modelled `what()` message of the division-by-zero exception. -/
def divZeroWhat : String := "Division by zero"

/-- Modelled `what()` message of the unknown-operation exception. -/
def unknownOpWhat : String := "Invalid operation"

/-- The exception thrown by the C++ calculator for each core error.  Modelled
from the spec and the GoogleTest expectation
`EXPECT_THROW(calculate(1, 0, "--divide"), std::invalid_argument)`. -/
def cppExceptionOf : CalcError → CppException
  | CalcError.DivisionByZero => ⟨CppExceptionKind.invalidArgument, divZeroWhat⟩
  | CalcError.UnknownOperation => ⟨CppExceptionKind.invalidArgument, unknownOpWhat⟩

/-- Modelled from the spec: the C++ `calculate(double, double, std::string)`
declared by `calculator.hpp` (its implementation `calculator.cpp` is missing
from the source tree): it returns the result or throws, modelled as
`Except CppException ℚ`. -/
def cppCalculate (a b : ℚ) (operation : String) : Except CppException ℚ :=
  match calcSpec a b operation with
  | .ok r => .ok r
  | .error e => .error (cppExceptionOf e)

/-- Numeric value of a decimal digit character. -/
def digitVal (c : Char) : Nat := c.toNat - '0'.toNat

/-- Natural number denoted by a list of decimal digit characters. -/
def digitsToNat (l : List Char) : Nat :=
  l.foldl (fun n c => 10 * n + digitVal c) 0

/-- Model of `std::stod` on plain decimal inputs: parses an optional sign,
then an integer part and an optional fractional part, taking the longest
initial sequence that forms a number and ignoring any remainder (as `stod`
does); returns `none` — `stod` throws `std::invalid_argument` — exactly when
no conversion can be performed, i.e. when no digit is consumed. -/
def stod (s : String) : Option ℚ :=
  let cs := s.toList
  let signAndRest : ℚ × List Char :=
    match cs with
    | '-' :: rest => (-1, rest)
    | '+' :: rest => (1, rest)
    | _ => (1, cs)
  let sign := signAndRest.1
  let body := signAndRest.2
  let intPart := body.takeWhile Char.isDigit
  let afterInt := body.dropWhile Char.isDigit
  let fracPart : List Char :=
    match afterInt with
    | '.' :: rest => rest.takeWhile Char.isDigit
    | _ => []
  if intPart = [] ∧ fracPart = [] then none
  else
    some (sign * ((digitsToNat intPart : ℚ) +
      (digitsToNat fracPart : ℚ) / ((10 : ℚ) ^ fracPart.length)))

/-- `EXIT_SUCCESS` from `<cstdlib>`. -/
def EXIT_SUCCESS : Nat := 0

/-- `EXIT_FAILURE` from `<cstdlib>`. -/
def EXIT_FAILURE : Nat := 1

/-- The usage line `main.cpp` prints to `std::cerr` on a wrong argument
count. -/
def usageMsg : String := "Usage: ./calculator <operation> <operand1> <operand2>\n"

/-- Outcome of one invocation of the C++ CLI `main`:
* `usage` — argument-count check failed: usage line on `stderr`,
  return `EXIT_FAILURE`;
* `crash e` — an exception escaped `main` uncaught (in the source this
  happens when `std::stod` throws outside the `try` block), so the process
  is terminated abnormally by `std::terminate`/`abort` instead of returning;
* `success r` — `Result: r` on `stdout`, return `EXIT_SUCCESS`;
* `calcFailure m` — `calculate` threw, the `catch` printed `what()` = `m`
  to `stderr`, return `EXIT_FAILURE`. -/
inductive CLIOutcome where
  | usage : CLIOutcome
  | crash : CppException → CLIOutcome
  | success : ℚ → CLIOutcome
  | calcFailure : String → CLIOutcome
deriving DecidableEq, Repr

/-- The exception thrown by `std::stod` when no conversion can be
performed. -/
def stodExn : CppException := ⟨CppExceptionKind.invalidArgument, "stod"⟩

/-- Exit status of a CLI outcome: `none` when the process did not return
normally (abnormal termination). -/
def CLIOutcome.exitCode : CLIOutcome → Option Nat
  | .usage => some EXIT_FAILURE
  | .crash _ => none
  | .success _ => some EXIT_SUCCESS
  | .calcFailure _ => some EXIT_FAILURE

/-- What the program itself writes to `stderr` in each outcome (the C++
runtime's terminate notice after a crash is not program output and is
modelled as empty). -/
def CLIOutcome.stderrMsg : CLIOutcome → String
  | .usage => usageMsg
  | .crash _ => ""
  | .success _ => ""
  | .calcFailure m => m

/-- What the program writes to `stdout` in each outcome. -/
def CLIOutcome.stdoutMsg : CLIOutcome → String
  | .success r => "Result: " ++ toString r ++ "\n"
  | _ => ""

/-- The C++ CLI driver, embedded from `main.cpp`.  `argv` is the full
argument vector including the program name, so the source's `argc != 4`
check is `argv.length ≠ 4`.  `op1` and `op2` are converted by `std::stod`
before the `try` block, so a failed conversion is an uncaught exception;
inside the `try`, `calculate`'s result is printed as `Result: <value>` and a
thrown `std::exception` is caught and its `what()` printed to `stderr` with
return `EXIT_FAILURE`. -/
def cppMain (argv : List String) : CLIOutcome :=
  if argv.length ≠ 4 then .usage
  else
    match stod (argv.getD 2 "") with
    | none => .crash stodExn
    | some op1 =>
      match stod (argv.getD 3 "") with
      | none => .crash stodExn
      | some op2 =>
        match cppCalculate op1 op2 (argv.getD 1 "") with
        | .ok r => .success r
        | .error e => .calcFailure e.what

/-- Instrumented trace of one `cppMain` run: its outcome together with
whether `std::stod` was ever invoked and whether `calculate` was ever
invoked, following the control flow of `main.cpp` line by line. -/
structure CLITrace where
  outcome : CLIOutcome
  calledStod : Bool
  calledCalculate : Bool
deriving DecidableEq, Repr

/-- `cppMain` with the instrumentation of `CLITrace`, same control flow as
the source: the `argc` check precedes both `std::stod` calls, which precede
the call to `calculate`. -/
def cppMainTraced (argv : List String) : CLITrace :=
  if argv.length ≠ 4 then ⟨.usage, false, false⟩
  else
    match stod (argv.getD 2 "") with
    | none => ⟨.crash stodExn, true, false⟩
    | some op1 =>
      match stod (argv.getD 3 "") with
      | none => ⟨.crash stodExn, true, false⟩
      | some op2 =>
        match cppCalculate op1 op2 (argv.getD 1 "") with
        | .ok r => ⟨.success r, true, true⟩
        | .error e => ⟨.calcFailure e.what, true, true⟩

/-- One recorded calculator invocation: two operands and an operation
token. -/
structure CalcCall where
  a : ℚ
  b : ℚ
  op : String
deriving DecidableEq, Repr

/-- Running a whole suite of C-interface invocations in order (as the CUnit
test suite does), collecting each result and status. -/
def runSuite (calls : List CalcCall) : List CResult :=
  calls.map (fun c => c_calculate c.a c.b c.op)

/-! ## Helper lemmas -/

theorem stod_one : stod "1" = some 1 := by
  have h1 : stod "1" = some ((1 : ℚ) * ((digitsToNat ['1'] : ℚ) +
      (digitsToNat ([] : List Char) : ℚ) / (10 : ℚ) ^ (List.length ([] : List Char)))) := rfl
  have h2 : digitsToNat ['1'] = 1 := by decide
  have h3 : digitsToNat ([] : List Char) = 0 := by decide
  rw [h1, h2, h3]
  norm_num

theorem stod_zero : stod "0" = some 0 := by
  have h1 : stod "0" = some ((1 : ℚ) * ((digitsToNat ['0'] : ℚ) +
      (digitsToNat ([] : List Char) : ℚ) / (10 : ℚ) ^ (List.length ([] : List Char)))) := rfl
  have h2 : digitsToNat ['0'] = 0 := by decide
  have h3 : digitsToNat ([] : List Char) = 0 := by decide
  rw [h1, h2, h3]
  norm_num

theorem stod_three : stod "3" = some 3 := by
  have h1 : stod "3" = some ((1 : ℚ) * ((digitsToNat ['3'] : ℚ) +
      (digitsToNat ([] : List Char) : ℚ) / (10 : ℚ) ^ (List.length ([] : List Char)))) := rfl
  have h2 : digitsToNat ['3'] = 3 := by decide
  have h3 : digitsToNat ([] : List Char) = 0 := by decide
  rw [h1, h2, h3]
  norm_num

theorem stod_five : stod "5" = some 5 := by
  have h1 : stod "5" = some ((1 : ℚ) * ((digitsToNat ['5'] : ℚ) +
      (digitsToNat ([] : List Char) : ℚ) / (10 : ℚ) ^ (List.length ([] : List Char)))) := rfl
  have h2 : digitsToNat ['5'] = 5 := by decide
  have h3 : digitsToNat ([] : List Char) = 0 := by decide
  rw [h1, h2, h3]
  norm_num

theorem stod_abc : stod "abc" = none := rfl

/-- When the argument count is right and both operands parse, `cppMain`
reduces to the `try` block around `calculate`. -/
theorem cppMain_parsed (argv : List String) (x y : ℚ)
    (hlen : argv.length = 4)
    (h2 : stod (argv.getD 2 "") = some x)
    (h3 : stod (argv.getD 3 "") = some y) :
    cppMain argv = (match cppCalculate x y (argv.getD 1 "") with
      | .ok r => CLIOutcome.success r
      | .error e => CLIOutcome.calcFailure e.what) := by
  unfold cppMain
  rw [if_neg (by omega), h2, h3]

/-- `calcSpec b = 0` division: the division-by-zero branch, for any
dividend. -/
theorem calcSpec_div_zero (a : ℚ) :
    calcSpec a 0 "--divide" = .error CalcError.DivisionByZero := by
  unfold calcSpec
  rw [if_neg (by decide), if_neg (by decide), if_neg (by decide), if_pos rfl, if_pos rfl]

/-- `cppCalculate 1 0 "--divide"` throws the division-by-zero exception. -/
theorem cppCalculate_one_zero :
    cppCalculate 1 0 "--divide" = .error ⟨CppExceptionKind.invalidArgument, divZeroWhat⟩ := by
  simp [cppCalculate, calcSpec_div_zero 1, cppExceptionOf]

/-- Every `calcFailure` message `cppMain` can emit is one of the two
modelled `what()` strings. -/
theorem cppMain_calcFailure_msg (argv : List String) (m : String)
    (h : cppMain argv = CLIOutcome.calcFailure m) :
    m = divZeroWhat ∨ m = unknownOpWhat := by
  by_cases hlen : argv.length = 4
  · rcases hx : stod (argv.getD 2 "") with _ | x
    · unfold cppMain at h
      rw [if_neg (by omega), hx] at h
      simp at h
    · rcases hy : stod (argv.getD 3 "") with _ | y
      · unfold cppMain at h
        rw [if_neg (by omega), hx, hy] at h
        simp at h
      · rw [cppMain_parsed argv x y hlen hx hy] at h
        rcases hc : cppCalculate x y (argv.getD 1 "") with e | r <;> rw [hc] at h
        · simp at h
          unfold cppCalculate at hc
          rcases hs : calcSpec x y (argv.getD 1 "") with e2 | r2 <;> rw [hs] at hc
          · simp at hc
            cases e2 <;> subst hc
            · exact Or.inl (by rw [← h]; rfl)
            · exact Or.inr (by rw [← h]; rfl)
          · simp at hc
        · simp at h
  · unfold cppMain at h
    rw [if_pos hlen] at h
    simp at h

/-! ## Claim theorems -/

/-- C1: for every finite operand `a`, `calculate(a, 0, divide)` fails with
`DivisionByZero` — the error indicator reports failure in every interface
(the spec-level result is the `DivisionByZero` error with no numeric result,
the C interface writes status `1`, the C++ interface throws) — and no trusted
numeric result is produced. -/
theorem divide_by_zero_fails (a : ℚ) :
    calcSpec a 0 "--divide" = Except.error CalcError.DivisionByZero ∧
    (c_calculate a 0 "--divide").status = 1 ∧
    cppCalculate a 0 "--divide" =
      Except.error (cppExceptionOf CalcError.DivisionByZero) := by
  have h := calcSpec_div_zero a
  exact ⟨h, by simp [c_calculate, h], by simp [cppCalculate, h]⟩

/-- C2: for every pair of operands, `calculate` returns `a + b` for add,
`a − b` (in that operand order) for subtract, `a × b` for multiply, and
`a / b` for divide when `b ≠ 0` (the `b ≠ 0` condition attaches to divide
only), each as a success; in particular `calculate(5, 3, add) = 8` and
`calculate(1, 1, add) = 2`. -/
theorem calculate_ops_correct (a b : ℚ) :
    calcSpec a b "--add" = Except.ok (a + b) ∧
    calcSpec a b "--subtract" = Except.ok (a - b) ∧
    calcSpec a b "--multiply" = Except.ok (a * b) ∧
    (b ≠ 0 → calcSpec a b "--divide" = Except.ok (a / b)) ∧
    calcSpec 5 3 "--add" = Except.ok 8 ∧
    calcSpec 1 1 "--add" = Except.ok 2 := by
  refine ⟨rfl, ?_, ?_, ?_, ?_, ?_⟩
  · unfold calcSpec
    rw [if_neg (by decide), if_pos rfl]
  · unfold calcSpec
    rw [if_neg (by decide), if_neg (by decide), if_pos rfl]
  · intro hb
    unfold calcSpec
    rw [if_neg (by decide), if_neg (by decide), if_neg (by decide), if_pos rfl, if_neg hb]
  · norm_num [calcSpec]
  · norm_num [calcSpec]

/-- C2 witness: the operation equations at the concrete operands `a = 5`,
`b = 3`, with the divide condition `3 ≠ 0` discharged. -/
theorem calculate_ops_correct_witness :
    calcSpec 5 3 "--add" = Except.ok (5 + 3) ∧
    calcSpec 5 3 "--subtract" = Except.ok (5 - 3) ∧
    calcSpec 5 3 "--multiply" = Except.ok (5 * 3) ∧
    calcSpec 5 3 "--divide" = Except.ok (5 / 3) ∧
    calcSpec 5 3 "--add" = Except.ok 8 ∧
    calcSpec 1 1 "--add" = Except.ok 2 := by
  obtain ⟨h1, h2, h3, h4, h5, h6⟩ := calculate_ops_correct 5 3
  exact ⟨h1, h2, h3, h4 (by norm_num), h5, h6⟩

/-- C3 (code evaluated at the failing input): invoked with the correct
argument count but the malformed operand string `"abc"`, the C++ CLI does
not fail with a usage error — `std::stod` throws outside the `try` block,
the exception escapes `main`, and the process is terminated abnormally
(no normally returned exit status at all, hence no usage message). -/
theorem malformed_operand_crashes :
    cppMain ["./calculator", "--add", "abc", "3"] = CLIOutcome.crash stodExn ∧
    (cppMain ["./calculator", "--add", "abc", "3"]).exitCode = none ∧
    (cppMain ["./calculator", "--add", "abc", "3"]).stderrMsg ≠ usageMsg := by
  refine ⟨rfl, rfl, ?_⟩
  intro h
  exact absurd h (by decide)

/-- C4: for every operation token outside the four recognised ones,
`calculate` fails with `UnknownOperation` for all operand values and returns
the error normally (the C status is `1`, the C++ interface throws the
modelled exception; no crash). -/
theorem unknown_operation_fails (op : String) (hop : op ∉ opTokens) (a b : ℚ) :
    calcSpec a b op = Except.error CalcError.UnknownOperation ∧
    (c_calculate a b op).status = 1 ∧
    cppCalculate a b op =
      Except.error (cppExceptionOf CalcError.UnknownOperation) := by
  simp only [opTokens, List.mem_cons, List.mem_singleton, not_or] at hop
  obtain ⟨h1, h2, h3, h4, -⟩ := hop
  have h : calcSpec a b op = Except.error CalcError.UnknownOperation := by
    unfold calcSpec
    rw [if_neg h1, if_neg h2, if_neg h3, if_neg h4]
  exact ⟨h, by simp [c_calculate, h], by simp [cppCalculate, h]⟩

/-- C4 witness: the unrecognised token `"--mod"` at operands `5` and `3`. -/
theorem unknown_operation_fails_witness :
    "--mod" ∉ opTokens ∧
    (calcSpec 5 3 "--mod" = Except.error CalcError.UnknownOperation ∧
     (c_calculate 5 3 "--mod").status = 1 ∧
     cppCalculate 5 3 "--mod" =
       Except.error (cppExceptionOf CalcError.UnknownOperation)) :=
  ⟨by decide, unknown_operation_fails "--mod" (by decide) 5 3⟩

/-- Any token outside the four recognised ones makes `calcSpec` fail with
`UnknownOperation`. -/
theorem calcSpec_notin (a b : ℚ) (op : String) (hop : op ∉ opTokens) :
    calcSpec a b op = Except.error CalcError.UnknownOperation := by
  simp only [opTokens, List.mem_cons, List.mem_singleton, not_or] at hop
  obtain ⟨h1, h2, h3, h4, -⟩ := hop
  unfold calcSpec
  rw [if_neg h1, if_neg h2, if_neg h3, if_neg h4]

/-- Concrete run: `./calculator --add 5 3` succeeds with result `8`. -/
theorem cppMain_add_five_three :
    cppMain ["./calculator", "--add", "5", "3"] = CLIOutcome.success 8 := by
  have h := cppMain_parsed ["./calculator", "--add", "5", "3"] 5 3 rfl stod_five stod_three
  rw [h]
  have hg : (["./calculator", "--add", "5", "3"] : List String).getD 1 "" = "--add" := rfl
  rw [hg]
  have hc : cppCalculate 5 3 "--add" = Except.ok 8 := by
    have hs : calcSpec 5 3 "--add" = Except.ok 8 := by norm_num [calcSpec]
    simp [cppCalculate, hs]
  rw [hc]

/-- C5: a succeeding CLI invocation prints `Result: <value>` on `stdout` and
exits with code 0 (`EXIT_SUCCESS`); an invocation failing with a usage error,
a division-by-zero error or an unknown-operation error prints an error
message on `stderr` and exits with a non-zero code (`EXIT_FAILURE`). -/
theorem cli_io_contract (argv : List String) :
    (∀ r, cppMain argv = CLIOutcome.success r →
      (cppMain argv).exitCode = some EXIT_SUCCESS ∧ EXIT_SUCCESS = 0 ∧
      (cppMain argv).stdoutMsg = "Result: " ++ toString r ++ "\n") ∧
    (cppMain argv = CLIOutcome.usage →
      (cppMain argv).exitCode = some EXIT_FAILURE ∧ EXIT_FAILURE ≠ 0 ∧
      (cppMain argv).stderrMsg = usageMsg ∧ usageMsg ≠ "") ∧
    (∀ m, cppMain argv = CLIOutcome.calcFailure m →
      (cppMain argv).exitCode = some EXIT_FAILURE ∧ EXIT_FAILURE ≠ 0 ∧
      (cppMain argv).stderrMsg = m ∧ m ≠ "") := by
  refine ⟨?_, ?_, ?_⟩
  · intro r h
    rw [h]
    exact ⟨rfl, rfl, rfl⟩
  · intro h
    rw [h]
    exact ⟨rfl, by decide, rfl, by decide⟩
  · intro m h
    rcases cppMain_calcFailure_msg argv m h with hm | hm <;> rw [h, hm] <;>
      exact ⟨rfl, by decide, rfl, by decide⟩

/-- C5 witness: the run `./calculator --add 5 3` succeeds with `Result: 8`
and exit code 0. -/
theorem cli_io_contract_witness :
    cppMain ["./calculator", "--add", "5", "3"] = CLIOutcome.success 8 ∧
    ((cppMain ["./calculator", "--add", "5", "3"]).exitCode = some EXIT_SUCCESS ∧
     EXIT_SUCCESS = 0 ∧
     (cppMain ["./calculator", "--add", "5", "3"]).stdoutMsg =
       "Result: " ++ toString (8 : ℚ) ++ "\n") :=
  ⟨cppMain_add_five_three,
   (cli_io_contract ["./calculator", "--add", "5", "3"]).1 8 cppMain_add_five_three⟩

/-- C6: whenever the CLI is invoked with an argument count other than exactly
three positional arguments (`argc ≠ 4` counting the program name), it prints
the usage message to `stderr` and returns the non-zero `EXIT_FAILURE`. -/
theorem wrong_arg_count_usage (argv : List String) (h : argv.length ≠ 4) :
    cppMain argv = CLIOutcome.usage ∧
    (cppMain argv).exitCode = some EXIT_FAILURE ∧ EXIT_FAILURE ≠ 0 ∧
    (cppMain argv).stderrMsg = usageMsg := by
  have hu : cppMain argv = CLIOutcome.usage := by
    unfold cppMain
    rw [if_pos h]
  rw [hu]
  exact ⟨rfl, rfl, by decide, rfl⟩

/-- C6 witness: invoking with no positional arguments at all. -/
theorem wrong_arg_count_usage_witness :
    (["./calculator"] : List String).length ≠ 4 ∧
    (cppMain ["./calculator"] = CLIOutcome.usage ∧
     (cppMain ["./calculator"]).exitCode = some EXIT_FAILURE ∧ EXIT_FAILURE ≠ 0 ∧
     (cppMain ["./calculator"]).stderrMsg = usageMsg) :=
  ⟨by decide, wrong_arg_count_usage ["./calculator"] (by decide)⟩

/-- C7: the calculator is a pure, stateless function of its inputs: in any
suite of invocations the result of each call depends only on that call's own
operands and token — inserting a call changes no other call's result, the
inserted call's result is `c_calculate` of its arguments regardless of the
surrounding calls — and two calls with identical inputs yield the identical
result and status. -/
theorem calculate_pure_stateless (pre post : List CalcCall) (c c' : CalcCall)
    (ha : c'.a = c.a) (hb : c'.b = c.b) (hop : c'.op = c.op) :
    runSuite (pre ++ c :: post) =
      runSuite pre ++ c_calculate c.a c.b c.op :: runSuite post ∧
    c_calculate c'.a c'.b c'.op = c_calculate c.a c.b c.op := by
  constructor
  · simp [runSuite]
  · rw [ha, hb, hop]

/-- C7 witness: a one-call suite of `calculate(5, 3, "--add")` and a repeated
identical call. -/
theorem calculate_pure_stateless_witness :
    runSuite [⟨5, 3, "--add"⟩] = [] ++ c_calculate 5 3 "--add" :: [] ∧
    c_calculate 5 3 "--add" = c_calculate 5 3 "--add" :=
  calculate_pure_stateless [] [] ⟨5, 3, "--add"⟩ ⟨5, 3, "--add"⟩ rfl rfl rfl

/-- C8: the C interface reports its outcome solely through the `int`
out-parameter — `0` exactly on success, `1` on failure — and on failure it
still returns a double normally; `DivisionByZero` and `UnknownOperation`
failures both produce the same status `1`, so the status alone cannot
distinguish the error kinds. -/
theorem c_status_contract (a b : ℚ) (op badOp : String) (hbad : badOp ∉ opTokens) :
    ((c_calculate a b op).status = 0 ∨ (c_calculate a b op).status = 1) ∧
    ((c_calculate a b op).status = 0 ↔ (calcSpec a b op).okB = true) ∧
    (c_calculate a 0 "--divide").status = 1 ∧
    (c_calculate a b badOp).status = 1 ∧
    (c_calculate a 0 "--divide").status = (c_calculate a b badOp).status ∧
    (∃ r, c_calculate a 0 "--divide" = ⟨r, 1⟩) := by
  have hb1 : calcSpec a b badOp = Except.error CalcError.UnknownOperation :=
    calcSpec_notin a b badOp hbad
  refine ⟨?_, ?_, ?_, ?_, ?_, ⟨0, ?_⟩⟩
  · rcases hs : calcSpec a b op with e | r
    · right
      simp [c_calculate, hs]
    · left
      simp [c_calculate, hs]
  · rcases hs : calcSpec a b op with e | r <;> simp [c_calculate, hs, Except.okB]
  · simp [c_calculate, calcSpec_div_zero a]
  · simp [c_calculate, hb1]
  · simp [c_calculate, calcSpec_div_zero a, hb1]
  · simp [c_calculate, calcSpec_div_zero a]

/-- C8 witness: operands `5`, `3`, the good token `"--add"` and the
unrecognised token `"--mod"`. -/
theorem c_status_contract_witness :
    (("--mod" : String) ∉ opTokens) ∧
    (((c_calculate 5 3 "--add").status = 0 ∨ (c_calculate 5 3 "--add").status = 1) ∧
     ((c_calculate 5 3 "--add").status = 0 ↔ (calcSpec 5 3 "--add").okB = true) ∧
     (c_calculate 5 0 "--divide").status = 1 ∧
     (c_calculate 5 3 "--mod").status = 1 ∧
     (c_calculate 5 0 "--divide").status = (c_calculate 5 3 "--mod").status ∧
     (∃ r, c_calculate 5 0 "--divide" = ⟨r, 1⟩)) :=
  ⟨by decide, c_status_contract 5 3 "--add" "--mod" (by decide)⟩

/-- C9: the C++ `calculate` signals division by zero by throwing
`std::invalid_argument` (every exception it throws is an
`std::invalid_argument`), and whenever `calculate` throws inside the CLI's
`try` block, `main` prints the exception's `what()` message to `stderr` and
returns `EXIT_FAILURE`. -/
theorem cpp_exception_contract (a x y : ℚ) (argv : List String) (e : CppException)
    (hlen : argv.length = 4)
    (h2 : stod (argv.getD 2 "") = some x)
    (h3 : stod (argv.getD 3 "") = some y)
    (he : cppCalculate x y (argv.getD 1 "") = Except.error e) :
    cppCalculate a 0 "--divide" =
      Except.error ⟨CppExceptionKind.invalidArgument, divZeroWhat⟩ ∧
    e.kind = CppExceptionKind.invalidArgument ∧
    cppMain argv = CLIOutcome.calcFailure e.what ∧
    (cppMain argv).exitCode = some EXIT_FAILURE ∧
    (cppMain argv).stderrMsg = e.what := by
  have h1 : cppCalculate a 0 "--divide" =
      Except.error ⟨CppExceptionKind.invalidArgument, divZeroWhat⟩ := by
    simp [cppCalculate, calcSpec_div_zero a, cppExceptionOf]
  have hkind : e.kind = CppExceptionKind.invalidArgument := by
    unfold cppCalculate at he
    rcases hs : calcSpec x y (argv.getD 1 "") with e2 | r2 <;> rw [hs] at he
    · simp at he
      rw [← he]
      cases e2 <;> rfl
    · simp at he
  have hm : cppMain argv = CLIOutcome.calcFailure e.what := by
    rw [cppMain_parsed argv x y hlen h2 h3, he]
  exact ⟨h1, hkind, hm, by rw [hm]; rfl, by rw [hm]; rfl⟩

/-- C9 witness: the run `./calculator --divide 1 0`, whose `calculate` call
throws the division-by-zero `std::invalid_argument`. -/
theorem cpp_exception_contract_witness :
    cppCalculate 1 0 "--divide" =
      Except.error ⟨CppExceptionKind.invalidArgument, divZeroWhat⟩ ∧
    (CppException.mk CppExceptionKind.invalidArgument divZeroWhat).kind =
      CppExceptionKind.invalidArgument ∧
    cppMain ["./calculator", "--divide", "1", "0"] =
      CLIOutcome.calcFailure divZeroWhat ∧
    (cppMain ["./calculator", "--divide", "1", "0"]).exitCode = some EXIT_FAILURE ∧
    (cppMain ["./calculator", "--divide", "1", "0"]).stderrMsg = divZeroWhat :=
  cpp_exception_contract 1 1 0 ["./calculator", "--divide", "1", "0"]
    ⟨CppExceptionKind.invalidArgument, divZeroWhat⟩ rfl stod_one stod_zero
    cppCalculate_one_zero

/-- C10: the C++ CLI checks the argument count before doing anything else:
with `argc ≠ 4` it reaches the usage outcome with `std::stod` never invoked
and `calculate` never invoked, printing the usage line to `stderr` with
return `EXIT_FAILURE`; the instrumented driver agrees with `cppMain`
everywhere. -/
theorem argc_check_first (argv : List String) (h : argv.length ≠ 4) :
    cppMainTraced argv = ⟨CLIOutcome.usage, false, false⟩ ∧
    (cppMainTraced argv).outcome.stderrMsg = usageMsg ∧
    (cppMainTraced argv).outcome.exitCode = some EXIT_FAILURE ∧
    (∀ w, (cppMainTraced w).outcome = cppMain w) := by
  have ht : cppMainTraced argv = ⟨CLIOutcome.usage, false, false⟩ := by
    unfold cppMainTraced
    rw [if_pos h]
  refine ⟨ht, by rw [ht]; rfl, by rw [ht]; rfl, ?_⟩
  intro w
  unfold cppMainTraced cppMain
  by_cases hw : w.length ≠ 4
  · rw [if_pos hw, if_pos hw]
  · rw [if_neg hw, if_neg hw]
    cases hx : stod (w.getD 2 "") with
    | none => rfl
    | some x =>
      cases hy : stod (w.getD 3 "") with
      | none => rfl
      | some y =>
        show (match cppCalculate x y (w.getD 1 "") with
          | Except.ok r =>
            (⟨CLIOutcome.success r, true, true⟩ : CLITrace)
          | Except.error e =>
            (⟨CLIOutcome.calcFailure e.what, true, true⟩ : CLITrace)).outcome =
          (match cppCalculate x y (w.getD 1 "") with
          | Except.ok r => CLIOutcome.success r
          | Except.error e => CLIOutcome.calcFailure e.what)
        cases hc : cppCalculate x y (w.getD 1 "") with
        | error e => rfl
        | ok r => rfl

/-- C10 witness: invoking with no positional arguments. -/
theorem argc_check_first_witness :
    (["./calculator"] : List String).length ≠ 4 ∧
    (cppMainTraced ["./calculator"] = ⟨CLIOutcome.usage, false, false⟩ ∧
     (cppMainTraced ["./calculator"]).outcome.stderrMsg = usageMsg ∧
     (cppMainTraced ["./calculator"]).outcome.exitCode = some EXIT_FAILURE ∧
     (∀ w, (cppMainTraced w).outcome = cppMain w)) :=
  ⟨by decide, argc_check_first ["./calculator"] (by decide)⟩
